import Mathlib

/-!
Verification of the MCP QuickJS Runner against its specification.

The repository contains two variants of the server:

* `src/server.ts` — the TypeScript file shipped under `src/`.  Its
  `runQuickJsInSandbox` never opens capture files: the local variables
  `stdoutFd`/`stderrFd` are still `undefined` when the WASI instance is
  constructed, the placeholders `stdout: ""`/`stderr: ""` are returned on the
  non-exception path, and the tool handler returns the literal
  `isError: false`.
* `src/unnamed/part_000` — the README, whose usage section embeds the complete
  variant: a temporary directory with `stdout.log`/`stderr.log` files, real
  file descriptors wired into WASI with `returnOnExit: true`, the exit code
  read back from `wasi.start`, and the computed error flag returned.

Both variants are embedded below, in the namespaces `ServerTs` and `Part000`.
Host interactions (file-system calls, WASI instantiation, the sandboxed
program itself) are abstracted into a per-invocation event datatype recording
exactly the observations each variant's code branches on: which setup call
threw, whether `wasi.start` threw, what the script wrote to each stream, and
its exit code.  Everything downstream of those observations is translated
statement by statement from the source.
-/

/-- JS whitespace characters removed by `String.prototype.trim` (the ASCII
subset; the strings produced by this server contain no other whitespace). -/
def jsWhitespaceChar (c : Char) : Bool :=
  c == ' ' || c == '\t' || c == '\n' || c == '\r' || c == '\x0b' || c == '\x0c'

/-- Leading-whitespace removal on character lists. -/
def jsTrimLeftList (l : List Char) : List Char :=
  l.dropWhile jsWhitespaceChar

/-- Trailing-whitespace removal on character lists. -/
def jsTrimRightList (l : List Char) : List Char :=
  (l.reverse.dropWhile jsWhitespaceChar).reverse

/-- Model of JS `String.prototype.trim`: drop whitespace from both ends. -/
def jsTrim (s : String) : String :=
  String.mk (jsTrimRightList (jsTrimLeftList s.data))

/-- JS truthiness of a string: non-empty. -/
def jsStrTruthy (s : String) : Bool :=
  decide (s ≠ "")

/-- JS truthiness of a possibly-undefined string (`undefined` and `""` are
falsy). -/
def jsOptTruthy : Option String → Bool
  | none => false
  | some s => decide (s ≠ "")

/-- The record returned by `runQuickJsInSandbox` in both variants:
`{ stdout, stderr, error? }`. -/
structure RunResult where
  stdout : String
  stderr : String
  error : Option String
deriving DecidableEq, Repr

/-- The MCP tool response produced by the tool handler: one text content block
plus the boolean error flag. -/
structure ToolResult where
  text : String
  isError : Bool
deriving DecidableEq, Repr

/-- Compiled WASM module handle, abstracted; immutable once loaded. -/
structure CompiledModule where
  moduleId : Nat
deriving DecidableEq, Repr

/-- Outcome of the host file-system read plus `WebAssembly.compile` at
startup: either a compiled module or a thrown error. -/
inductive LoadOutcome where
  | loaded (m : CompiledModule)
  | loadFailed (message : String)
deriving DecidableEq, Repr

/-- `loadAndCompileWasm` (both variants): returns the compiled module, or
reaches `process.exit(1)` in its catch block, modelled as `Except.error 1`. -/
def loadAndCompileWasm : LoadOutcome → Except Nat CompiledModule
  | .loaded m => .ok m
  | .loadFailed _ => .error 1

/-- Terminal state of `startServer`: either the process exited or the server
is serving requests with a compiled module in hand. -/
inductive StartupResult where
  | exited (code : Nat)
  | serving (m : CompiledModule)
deriving DecidableEq, Repr

/-- `startServer` up to the point where the tool is registered and the
transport connected: the module is awaited first; only a successful load
reaches the serving state. -/
def startServer (lo : LoadOutcome) : StartupResult :=
  match loadAndCompileWasm lo with
  | .error c => .exited c
  | .ok m => .serving m

/-- The option object passed to `new WASI({...})`, field for field. -/
structure WasiOptions where
  version : String
  args : List String
  env : List (String × String)
  stdin : Nat
  stdout : Option Nat
  stderr : Option Nat
  returnOnExit : Option Bool
deriving DecidableEq, Repr

namespace Part000

/-- Point in the setup sequence of `runQuickJsInSandbox` (part_000) at which
the host call threw, determining which backing stores had been acquired. -/
inductive SetupStage where
  | mkdtempCall
  | openStdout
  | openStderr
  | instantiate
deriving DecidableEq, Repr

/-- Abstract per-invocation behaviour observed by `runQuickJsInSandbox`
(part_000 variant): either a setup call threw, or `wasi.start` threw after the
script had already written the given text to the capture files, or the script
ran to completion writing the given text and exiting with the given code. -/
inductive SandboxEvent where
  | setupFailure (stage : SetupStage) (message : String)
  | startFailure (writtenStdout writtenStderr : String) (message : String)
  | completed (writtenStdout writtenStderr : String) (exitCode : Nat)
deriving DecidableEq, Repr

/-- State of the capture channel's backing stores: the temporary directory and
the two open file handles. -/
structure CaptureState where
  tempDirExists : Bool
  stdoutOpen : Bool
  stderrOpen : Bool
deriving DecidableEq, Repr

/-- All backing stores gone. -/
def releasedState : CaptureState := ⟨false, false, false⟩

/-- The `finally` block of `runQuickJsInSandbox`: close each handle that is
still open and remove the temporary directory (`rm` with
`recursive: true, force: true`, which succeeds whether or not the directory
still exists).  Its result never retains any backing store. -/
def release (_ : CaptureState) : CaptureState :=
  ⟨false, false, false⟩

/-- Backing stores acquired at the moment a setup call threw, following the
acquisition order `mkdtemp`; `open stdout.log`; `open stderr.log`;
`WebAssembly.instantiate`. -/
def acquiredAtFailure : SetupStage → CaptureState
  | .mkdtempCall => ⟨false, false, false⟩
  | .openStdout => ⟨true, false, false⟩
  | .openStderr => ⟨true, true, false⟩
  | .instantiate => ⟨true, true, true⟩

/-- `mkWasiOptions` (part_000): the option object built at the `new WASI`
call, with the code passed inline via `-e`, the host environment object
`env`, and the two capture file descriptors. -/
def mkWasiOptions (jsCode : String) (hostEnv : List (String × String))
    (stdoutFd stderrFd : Nat) : WasiOptions :=
  { version := "preview1"
    args := ["qjs", "-e", jsCode]
    env := hostEnv
    stdin := 0
    stdout := some stdoutFd
    stderr := some stderrFd
    returnOnExit := some true }

/-- `runQuickJsInSandbox` (part_000 variant).  First component: the returned
record.  Second component: the state of the backing stores after the
`finally` block has run, starting from the state reached on that path.
On the setup-failure path the catch block returns the setup error with empty
streams.  On the `wasi.start` exception path the function returns early with
empty stdout and a synthesized stderr — the capture files are never read, and
`finally` still closes both handles and removes the directory.  On the
completed path both handles are closed inline (and nulled) before the files
are read back, so only the directory remains for `finally`. -/
def runQuickJsInSandbox : SandboxEvent → RunResult × CaptureState
  | .setupFailure stage m =>
      (⟨"", "", some ("Sandbox setup or execution failed: " ++ m)⟩,
        release (acquiredAtFailure stage))
  | .startFailure _ _ m =>
      (⟨"", "WASI start error: " ++ m,
          some ("Sandbox execution failed during start: " ++ m)⟩,
        release ⟨true, true, true⟩)
  | .completed out err c =>
      (⟨out, err,
          if c ≠ 0 then
            some ("QuickJS process exited with code " ++ toString c ++
              ". Check stderr for details.")
          else none⟩,
        release ⟨true, false, false⟩)

/-- The `combinedOutput` string built by the tool handler (part_000): each
present stream or error is wrapped in its labelled delimiter pair; if all
three are absent the whole string is replaced by the no-output marker. -/
def combinedOutput (r : RunResult) : String :=
  let base :=
    (if jsStrTruthy r.stdout then
      "--- stdout ---\n" ++ r.stdout ++ "\n--- stdout ---\n" else "")
    ++ (if jsStrTruthy r.stderr then
      "--- stderr ---\n" ++ r.stderr ++ "\n--- stderr ---\n" else "")
    ++ (if jsOptTruthy r.error then
      "--- Execution Error ---\n" ++ r.error.getD "" ++
        "\n--- Execution Error ---\n" else "")
  if !jsStrTruthy r.stdout && !jsStrTruthy r.stderr && !jsOptTruthy r.error
  then "--- Execution Success (No Output, Exit Code 0) ---"
  else base

/-- The handler's error flag (part_000):
`!!result.error || (result.stderr && result.stderr.trim().length > 0)`,
coerced with `Boolean(...)`. -/
def isErrorFlag (r : RunResult) : Bool :=
  jsOptTruthy r.error ||
    (jsStrTruthy r.stderr && decide (0 < (jsTrim r.stderr).length))

/-- Body of the tool handler's `try` block (part_000): the trimmed combined
output as the single text content, with the computed error flag. -/
def toolHandlerBody (r : RunResult) : ToolResult :=
  { text := jsTrim (combinedOutput r), isError := isErrorFlag r }

/-- The tool handler (part_000): the `try` block around the sandbox call and
response construction, and the catch-all returning the server-error text with
`isError: true`. -/
def toolHandler : Except String RunResult → ToolResult
  | .ok r => toolHandlerBody r
  | .error m =>
      { text := "Server error during tool execution: " ++ m, isError := true }

/-- End-to-end: the tool response produced for one sandbox event. -/
def toolResultOfEvent (ev : SandboxEvent) : ToolResult :=
  toolHandlerBody (runQuickJsInSandbox ev).1

end Part000

namespace ServerTs

/-- Abstract per-invocation behaviour observed by `runQuickJsInSandbox`
(src/server.ts variant): either the outer `try` threw (WASI construction or
instantiation), or the run proceeded — recording whether `wasi.start` threw
(that exception is caught and only logged), what the script wrote to its
streams, and its exit code.  None of the last three are observable by the
function's return value. -/
inductive ServerEvent where
  | hostFailure (message : String)
  | ran (startThrew : Bool) (writtenStdout writtenStderr : String)
      (exitCode : Nat)
deriving DecidableEq, Repr

/-- `mkWasiOptions` (src/server.ts): the option object built at the
`new WASI` call.  `stdoutFd` and `stderrFd` are still `undefined` at this
point, so the `stdout`/`stderr` fields are absent; `returnOnExit` is not
set. -/
def mkWasiOptions (jsCode : String)
    (hostEnv : List (String × String)) : WasiOptions :=
  { version := "preview1"
    args := ["qjs", "-e", jsCode]
    env := hostEnv
    stdin := 0
    stdout := none
    stderr := none
    returnOnExit := none }

/-- `runQuickJsInSandbox` (src/server.ts variant): on the non-exception path
the placeholders `stdout: ""`, `stderr: ""`, `error: undefined` are returned
regardless of the run; the catch path returns the sandbox-failure message
with `capturedStderrOnError = ""`. -/
def runQuickJsInSandbox : ServerEvent → RunResult
  | .hostFailure m => ⟨"", "", some ("Sandbox execution failed: " ++ m)⟩
  | .ran _ _ _ _ => ⟨"", "", none⟩

/-- The `combinedOutput` string built by the tool handler (src/server.ts):
each present stream or error gets an opening delimiter line only, and the
no-output marker lacks the exit-code mention. -/
def combinedOutput (r : RunResult) : String :=
  let base :=
    (if jsStrTruthy r.stdout then
      "--- stdout ---\n" ++ r.stdout ++ "\n" else "")
    ++ (if jsStrTruthy r.stderr then
      "--- stderr ---\n" ++ r.stderr ++ "\n" else "")
    ++ (if jsOptTruthy r.error then
      "--- Execution Error ---\n" ++ r.error.getD "" ++ "\n" else "")
  if !jsStrTruthy r.stdout && !jsStrTruthy r.stderr && !jsOptTruthy r.error
  then "--- Execution Success (No Output) ---"
  else base

/-- Body of the tool handler's `try` block (src/server.ts).  The handler
computes an error flag from `result.error` and `result.stderr` but only logs
with it; the returned object carries the literal `isError: false`. -/
def toolHandlerBody (r : RunResult) : ToolResult :=
  { text := jsTrim (combinedOutput r), isError := false }

/-- The tool handler (src/server.ts): `try` body plus the catch-all returning
the server-error text with `isError: true`. -/
def toolHandler : Except String RunResult → ToolResult
  | .ok r => toolHandlerBody r
  | .error m =>
      { text := "Server error during tool execution: " ++ m, isError := true }

/-- End-to-end: the tool response produced for one sandbox event. -/
def toolResultOfEvent (ev : ServerEvent) : ToolResult :=
  toolHandlerBody (runQuickJsInSandbox ev)

end ServerTs

/-! ## General lemmas about strings and the trim model -/

theorem string_data_inj {a b : String} (h : a.data = b.data) : a = b := by
  cases a; cases b; exact congrArg String.mk h

theorem string_data_append (a b : String) : (a ++ b).data = a.data ++ b.data :=
  rfl

theorem string_append_empty (s : String) : s ++ "" = s :=
  string_data_inj (by rw [string_data_append]; exact List.append_nil _)

theorem string_empty_append (s : String) : "" ++ s = s :=
  string_data_inj (by rw [string_data_append]; rfl)

theorem string_ne_empty_of_head {s : String} {c : Char}
    (h : s.data.head? = some c) : s ≠ "" := by
  intro he
  rw [he] at h
  cases h

theorem jsStrTruthy_of_ne {s : String} (h : s ≠ "") : jsStrTruthy s = true := by
  simp [jsStrTruthy, h]

theorem jsOptTruthy_some_of_ne {s : String} (h : s ≠ "") :
    jsOptTruthy (some s) = true := by
  simp [jsOptTruthy, h]

theorem dropWhile_append_of_ne_nil {p : Char → Bool} :
    ∀ (a b : List Char), a.dropWhile p ≠ [] →
      (a ++ b).dropWhile p = a.dropWhile p ++ b := by
  intro a b h
  induction a with
  | nil => simp [List.dropWhile] at h
  | cons c t ih =>
    by_cases hc : p c
    · rw [List.dropWhile_cons, if_pos hc] at h ⊢
      rw [List.cons_append, List.dropWhile_cons, if_pos hc]
      exact ih h
    · rw [List.cons_append, List.dropWhile_cons, if_neg hc,
        List.dropWhile_cons, if_neg hc]
      rfl

theorem jsTrimRightList_append (u s : List Char) (hs : jsTrimRightList s ≠ []) :
    jsTrimRightList (u ++ s) = u ++ jsTrimRightList s := by
  have hds : s.reverse.dropWhile jsWhitespaceChar ≠ [] := by
    intro hnil
    apply hs
    show (s.reverse.dropWhile jsWhitespaceChar).reverse = []
    rw [hnil]
    rfl
  show ((u ++ s).reverse.dropWhile jsWhitespaceChar).reverse = _
  rw [List.reverse_append, dropWhile_append_of_ne_nil _ _ hds,
    List.reverse_append, List.reverse_reverse]
  rfl

theorem jsTrimLeftList_cons (c : Char) (t : List Char)
    (hc : jsWhitespaceChar c = false) :
    jsTrimLeftList (c :: t) = c :: t := by
  show (c :: t).dropWhile jsWhitespaceChar = c :: t
  rw [List.dropWhile_cons, if_neg (by simp [hc])]

theorem jsTrim_shape (c : Char) (u s : List Char)
    (hc : jsWhitespaceChar c = false) (hs : jsTrimRightList s ≠ []) :
    jsTrimRightList (jsTrimLeftList (c :: (u ++ s)))
      = c :: (u ++ jsTrimRightList s) := by
  rw [jsTrimLeftList_cons _ _ hc]
  have h : c :: (u ++ s) = (c :: u) ++ s := rfl
  rw [h, jsTrimRightList_append _ _ hs]
  rfl

/-- Trimming a string of the form `pre ++ mid ++ post` whose first character
is not whitespace and whose `post` part does not trim to nothing leaves
`pre ++ mid` intact and trims only inside `post`. -/
theorem jsTrim_sandwich (pre mid post : String) (c : Char)
    (hpre : pre.data.head? = some c) (hc : jsWhitespaceChar c = false)
    (hpost : jsTrimRightList post.data ≠ []) :
    (jsTrim (pre ++ mid ++ post)).data
      = pre.data ++ mid.data ++ jsTrimRightList post.data := by
  obtain ⟨t, ht⟩ : ∃ t, pre.data = c :: t := by
    cases hd : pre.data with
    | nil => rw [hd] at hpre; cases hpre
    | cons a t =>
      rw [hd] at hpre
      simp only [List.head?_cons, Option.some.injEq] at hpre
      exact ⟨t, by rw [hpre]⟩
  show jsTrimRightList (jsTrimLeftList ((pre ++ mid ++ post).data)) = _
  have hd2 : (pre ++ mid ++ post).data
      = c :: ((t ++ mid.data) ++ post.data) := by
    rw [string_data_append, string_data_append, ht]
    simp [List.append_assoc]
  rw [hd2, jsTrim_shape c (t ++ mid.data) post.data hc hpost, ht]
  simp [List.append_assoc]

theorem head_dash_append (a b : String) {c : Char}
    (ha : a.data.head? = some c) : (a ++ b).data.head? = some c := by
  rw [string_data_append]
  cases hd : a.data with
  | nil => rw [hd] at ha; cases ha
  | cons x t =>
    rw [hd] at ha
    simp only [List.head?_cons] at ha ⊢
    simpa using ha

theorem head_of_empty_or_dash (a b : String) {c : Char}
    (ha : a.data = [] ∨ a.data.head? = some c) (hb : b.data.head? = some c) :
    (a ++ b).data.head? = some c := by
  rcases ha with ha | ha
  · rw [string_data_append, ha]
    exact hb
  · exact head_dash_append a b ha

theorem empty_or_head_append (a b : String) {c : Char}
    (ha : a.data = [] ∨ a.data.head? = some c)
    (hb : b.data = [] ∨ b.data.head? = some c) :
    (a ++ b).data = [] ∨ (a ++ b).data.head? = some c := by
  rcases ha with ha | ha
  · rw [string_data_append, ha]
    simpa using hb
  · right
    exact head_dash_append a b ha

theorem empty_or_head_ite (cond : Prop) [Decidable cond] (s : String) {c : Char}
    (hs : s.data.head? = some c) :
    (if cond then s else "").data = [] ∨
      (if cond then s else "").data.head? = some c := by
  by_cases h : cond
  · rw [if_pos h]
    right
    exact hs
  · rw [if_neg h]
    left
    rfl

/-! ## Claim theorems -/

/-- C1: for every script execution whose exit status is 0 but whose captured
stderr text is non-empty after trimming whitespace, the tool result has
`isError = true` and its content text includes the stderr text. -/
theorem part000_stderr_on_success_flags_error (out err : String)
    (h : jsTrim err ≠ "") :
    (Part000.toolResultOfEvent (.completed out err 0)).isError = true ∧
    err.data <:+: (Part000.toolResultOfEvent (.completed out err 0)).text.data := by
  have herr : err ≠ "" := by
    intro he
    apply h
    rw [he]
    rfl
  have hlen : 0 < (jsTrim err).length := by
    have hd : (jsTrim err).data ≠ [] := by
      intro hnil
      exact h (string_data_inj (by rw [hnil]))
    exact List.length_pos.mpr hd
  have hr : (Part000.runQuickJsInSandbox (.completed out err 0)).1
      = ⟨out, err, none⟩ := by
    simp [Part000.runQuickJsInSandbox]
  constructor
  · show (Part000.toolHandlerBody
        (Part000.runQuickJsInSandbox (.completed out err 0)).1).isError = true
    rw [hr]
    simp [Part000.toolHandlerBody, Part000.isErrorFlag,
      jsStrTruthy_of_ne herr, hlen]
  · show err.data <:+: (Part000.toolHandlerBody
        (Part000.runQuickJsInSandbox (.completed out err 0)).1).text.data
    rw [hr]
    have hcomb : Part000.combinedOutput ⟨out, err, none⟩
        = ((if jsStrTruthy out then
            "--- stdout ---\n" ++ out ++ "\n--- stdout ---\n" else "")
           ++ "--- stderr ---\n") ++ err ++ "\n--- stderr ---\n" := by
      apply string_data_inj
      simp [Part000.combinedOutput, jsStrTruthy_of_ne herr, jsOptTruthy,
        string_data_append, List.append_assoc]
    show err.data <:+:
      (jsTrim (Part000.combinedOutput ⟨out, err, none⟩)).data
    rw [hcomb]
    have hpre : (((if jsStrTruthy out then
        "--- stdout ---\n" ++ out ++ "\n--- stdout ---\n" else "")
          ++ "--- stderr ---\n")).data.head? = some '-' := by
      apply head_of_empty_or_dash
      · by_cases hout : jsStrTruthy out
        · rw [if_pos hout]
          right
          exact head_dash_append _ _ (head_dash_append _ _ rfl)
        · rw [if_neg hout]
          left
          rfl
      · rfl
    rw [jsTrim_sandwich _ _ _ '-' hpre (by decide) (by decide)]
    exact ⟨_, _, rfl⟩

/-- C1 witness: a concrete run with exit 0 and stderr text. -/
theorem part000_stderr_on_success_flags_error_witness :
    (Part000.toolResultOfEvent
      (.completed "ok\n" "warning: deprecated\n" 0)).isError = true ∧
    "warning: deprecated\n".data <:+:
      (Part000.toolResultOfEvent
        (.completed "ok\n" "warning: deprecated\n" 0)).text.data :=
  part000_stderr_on_success_flags_error "ok\n" "warning: deprecated\n"
    (by decide)

/-- C2: for every script execution that finishes with a non-zero exit status,
the tool result has `isError = true` and its content text contains the
message naming that exit code. -/
theorem part000_nonzero_exit_flags_error (out err : String) (c : Nat)
    (hc : c ≠ 0) :
    (Part000.toolResultOfEvent (.completed out err c)).isError = true ∧
    ("QuickJS process exited with code " ++ toString c).data <:+:
      (Part000.toolResultOfEvent (.completed out err c)).text.data := by
  have hmsghead : ("QuickJS process exited with code " ++ toString c ++
      ". Check stderr for details.").data.head? = some 'Q' :=
    head_dash_append _ _ (head_dash_append _ _ rfl)
  have hmsg : ("QuickJS process exited with code " ++ toString c ++
      ". Check stderr for details." : String) ≠ "" :=
    string_ne_empty_of_head hmsghead
  have hr : (Part000.runQuickJsInSandbox (.completed out err c)).1
      = ⟨out, err, some ("QuickJS process exited with code " ++ toString c ++
          ". Check stderr for details.")⟩ := by
    simp [Part000.runQuickJsInSandbox, hc]
  constructor
  · show (Part000.toolHandlerBody
        (Part000.runQuickJsInSandbox (.completed out err c)).1).isError = true
    rw [hr]
    simp [Part000.toolHandlerBody, Part000.isErrorFlag,
      jsOptTruthy_some_of_ne hmsg]
  · show ("QuickJS process exited with code " ++ toString c).data <:+:
      (Part000.toolHandlerBody
        (Part000.runQuickJsInSandbox (.completed out err c)).1).text.data
    rw [hr]
    have hcomb : Part000.combinedOutput ⟨out, err,
        some ("QuickJS process exited with code " ++ toString c ++
          ". Check stderr for details.")⟩
        = ((if jsStrTruthy out then
              "--- stdout ---\n" ++ out ++ "\n--- stdout ---\n" else "")
            ++ (if jsStrTruthy err then
              "--- stderr ---\n" ++ err ++ "\n--- stderr ---\n" else "")
            ++ "--- Execution Error ---\n")
          ++ ("QuickJS process exited with code " ++ toString c)
          ++ (". Check stderr for details." ++ "\n--- Execution Error ---\n") := by
      apply string_data_inj
      simp [Part000.combinedOutput, jsOptTruthy_some_of_ne hmsg,
        string_data_append, List.append_assoc]
    show ("QuickJS process exited with code " ++ toString c).data <:+:
      (jsTrim (Part000.combinedOutput ⟨out, err,
        some ("QuickJS process exited with code " ++ toString c ++
          ". Check stderr for details.")⟩)).data
    rw [hcomb]
    have hpre : ((if jsStrTruthy out then
          "--- stdout ---\n" ++ out ++ "\n--- stdout ---\n" else "")
        ++ (if jsStrTruthy err then
          "--- stderr ---\n" ++ err ++ "\n--- stderr ---\n" else "")
        ++ "--- Execution Error ---\n").data.head? = some '-' := by
      apply head_of_empty_or_dash
      · apply empty_or_head_append
        · exact empty_or_head_ite _ _
            (head_dash_append _ _ (head_dash_append _ _ rfl))
        · exact empty_or_head_ite _ _
            (head_dash_append _ _ (head_dash_append _ _ rfl))
      · rfl
    rw [jsTrim_sandwich _ _ _ '-' hpre (by decide) (by decide)]
    exact ⟨_, _, rfl⟩

/-- C2 witness: a concrete run exiting with code 3. -/
theorem part000_nonzero_exit_flags_error_witness :
    (Part000.toolResultOfEvent (.completed "" "boom\n" 3)).isError = true ∧
    ("QuickJS process exited with code " ++ toString 3).data <:+:
      (Part000.toolResultOfEvent (.completed "" "boom\n" 3)).text.data :=
  part000_nonzero_exit_flags_error "" "boom\n" 3 (by decide)

/-- C3 counterexample: for the run writing exactly `"hi\n"` to stdout with
empty stderr and exit 0, the content text is the delimiter-wrapped block, not
the captured stdout text itself, so the claim as stated fails. -/
theorem stdout_only_content_not_equal_counterexample :
    ¬ ((Part000.toolResultOfEvent (.completed "hi\n" "" 0)).text = "hi\n" ∧
       (Part000.toolResultOfEvent (.completed "hi\n" "" 0)).isError = false) := by
  intro hcl
  exact absurd hcl.1 (by decide)

/-- C3 (amended): for every script that exits 0 writing only to stdout, the
content text is the captured stdout wrapped in the labelled stdout delimiters
(with the final newline trimmed), and `isError` is false. -/
theorem part000_stdout_only_content_wrapped (out : String) (h : out ≠ "") :
    (Part000.toolResultOfEvent (.completed out "" 0)).text
      = "--- stdout ---\n" ++ out ++ "\n--- stdout ---" ∧
    (Part000.toolResultOfEvent (.completed out "" 0)).isError = false := by
  have hr : (Part000.runQuickJsInSandbox (.completed out "" 0)).1
      = ⟨out, "", none⟩ := by
    simp [Part000.runQuickJsInSandbox]
  constructor
  · show (Part000.toolHandlerBody
        (Part000.runQuickJsInSandbox (.completed out "" 0)).1).text = _
    rw [hr]
    have hcomb : Part000.combinedOutput ⟨out, "", none⟩
        = "--- stdout ---\n" ++ out ++ "\n--- stdout ---\n" := by
      apply string_data_inj
      simp [Part000.combinedOutput, jsStrTruthy, jsOptTruthy, h,
        string_data_append, List.append_assoc]
    show jsTrim (Part000.combinedOutput ⟨out, "", none⟩) = _
    rw [hcomb]
    apply string_data_inj
    rw [jsTrim_sandwich "--- stdout ---\n" out "\n--- stdout ---\n" '-' rfl
      (by decide) (by decide)]
    have htr : jsTrimRightList ("\n--- stdout ---\n" : String).data
        = ("\n--- stdout ---" : String).data := by decide
    rw [htr]
    simp [string_data_append]
  · show (Part000.toolHandlerBody
        (Part000.runQuickJsInSandbox (.completed out "" 0)).1).isError = false
    rw [hr]
    simp [Part000.toolHandlerBody, Part000.isErrorFlag, jsStrTruthy,
      jsOptTruthy]

/-- C3 witness: the concrete stdout-only run from the specification's
example. -/
theorem part000_stdout_only_content_wrapped_witness :
    (Part000.toolResultOfEvent (.completed "hi\n" "" 0)).text
      = "--- stdout ---\n" ++ "hi\n" ++ "\n--- stdout ---" ∧
    (Part000.toolResultOfEvent (.completed "hi\n" "" 0)).isError = false :=
  part000_stdout_only_content_wrapped "hi\n" (by decide)

section
set_option maxRecDepth 8000

/-- C4 counterexample: a run that wrote `"some text"` to stdout before
`wasi.start` threw yields a result with empty stdout whose content text does
not include the written output, so the claim as stated fails. -/
theorem start_failure_partial_output_lost_counterexample :
    (Part000.runQuickJsInSandbox
      (.startFailure "some text" "" "boom")).1.stdout = "" ∧
    ¬ ("some text".data <:+:
      (Part000.toolResultOfEvent (.startFailure "some text" "" "boom")).text.data) := by
  constructor
  · rfl
  · decide

/-- C4 (amended): on the host-level start-exception path the capture files
are never read back: whatever the script wrote is discarded, and the result
carries empty stdout, a synthesized stderr naming the start error, and the
start-failure error message (the `finally` block still releases the backing
stores). -/
theorem part000_start_failure_discards_partial_output
    (writtenStdout writtenStderr m : String) :
    Part000.runQuickJsInSandbox
        (.startFailure writtenStdout writtenStderr m)
      = (⟨"", "WASI start error: " ++ m,
          some ("Sandbox execution failed during start: " ++ m)⟩,
        Part000.releasedState) := rfl

end

/-- C5: on every exit path of `runQuickJsInSandbox` the capture channel's
backing stores (temporary directory and both file handles) are released
before the result is returned, and the release step is idempotent. -/
theorem part000_capture_channel_released (ev : Part000.SandboxEvent) :
    (Part000.runQuickJsInSandbox ev).2 = Part000.releasedState ∧
    ∀ s, Part000.release (Part000.release s) = Part000.release s := by
  refine ⟨?_, fun s => rfl⟩
  cases ev <;> rfl

/-- C6: a script that exits 0 producing no output on either stream yields the
fixed no-output marker with `isError = false`, in both variants (each with
its own marker text). -/
theorem no_output_marker_success :
    Part000.toolResultOfEvent (.completed "" "" 0)
      = ⟨"--- Execution Success (No Output, Exit Code 0) ---", false⟩ ∧
    ∀ b : Bool, ServerTs.toolResultOfEvent (.ran b "" "" 0)
      = ⟨"--- Execution Success (No Output) ---", false⟩ :=
  ⟨by decide, fun _ => rfl⟩

/-- C7: every exception escaping the invoke-then-classify path is caught by
the tool handler's catch-all, which returns `isError = true` with the
server-error text; the handler is a total function into tool results, so no
exception reaches the transport layer. -/
theorem tool_handler_catches_internal_faults (m : String) :
    Part000.toolHandler (.error m)
      = ⟨"Server error during tool execution: " ++ m, true⟩ ∧
    ServerTs.toolHandler (.error m)
      = ⟨"Server error during tool execution: " ++ m, true⟩ :=
  ⟨rfl, rfl⟩

/-- C8: if loading or compiling the sandbox binary fails, the process exits
with the non-zero code 1 before any serving state is reached, and the server
only ever serves with the successfully loaded compiled module. -/
theorem startup_fails_fast_without_module :
    (∀ msg, startServer (.loadFailed msg) = .exited 1 ∧ (1 : Nat) ≠ 0) ∧
    (∀ lo m, startServer lo = .serving m → lo = .loaded m) := by
  constructor
  · intro msg
    exact ⟨rfl, by decide⟩
  · intro lo m h
    cases lo with
    | loaded m2 =>
      simp only [startServer, loadAndCompileWasm,
        StartupResult.serving.injEq] at h
      rw [h]
    | loadFailed msg =>
      simp [startServer, loadAndCompileWasm] at h

/-- C8 witness: a successful startup serves exactly the loaded module. -/
theorem startup_fails_fast_without_module_witness :
    LoadOutcome.loaded ⟨7⟩ = .loaded ⟨7⟩ :=
  startup_fails_fast_without_module.2 (.loaded ⟨7⟩) ⟨7⟩ rfl

/-- C9: in src/server.ts, `runQuickJsInSandbox` on its non-exception path
returns the placeholders `stdout = ""`, `stderr = ""` regardless of what the
script writes or how it exits, the WASI options carry no capture file
descriptors, and the handler's content for every such run is the no-output
marker. -/
theorem serverts_run_returns_empty_placeholders (b : Bool) (out err : String)
    (c : Nat) (code : String) (e : List (String × String)) :
    ServerTs.runQuickJsInSandbox (.ran b out err c) = ⟨"", "", none⟩ ∧
    (ServerTs.mkWasiOptions code e).stdout = none ∧
    (ServerTs.mkWasiOptions code e).stderr = none ∧
    ServerTs.toolResultOfEvent (.ran b out err c)
      = ⟨"--- Execution Success (No Output) ---", false⟩ :=
  ⟨rfl, rfl, rfl, rfl⟩

/-- C10: both variants pass the host process environment verbatim as the
`env` field of the WASI options, so two invocations of the same code under
different host environments present different environments to the sandboxed
script. -/
theorem wasi_env_passed_verbatim (code : String)
    (e e1 e2 : List (String × String)) (fd1 fd2 : Nat) :
    (ServerTs.mkWasiOptions code e).env = e ∧
    (Part000.mkWasiOptions code e fd1 fd2).env = e ∧
    (e1 ≠ e2 →
      (ServerTs.mkWasiOptions code e1).env
        ≠ (ServerTs.mkWasiOptions code e2).env) :=
  ⟨rfl, rfl, fun h hc => h hc⟩

/-- C10 witness: two concrete distinct host environments yield distinct
environments inside the sandbox configuration. -/
theorem wasi_env_passed_verbatim_witness :
    (ServerTs.mkWasiOptions "1" [("HOME", "/a")]).env
      ≠ (ServerTs.mkWasiOptions "1" [("HOME", "/b")]).env :=
  (wasi_env_passed_verbatim "1" [] [("HOME", "/a")] [("HOME", "/b")] 0 0).2.2
    (by decide)
